import Mathlib

/-!
Verification of the sutra physical-assessment front end.

The development shallowly embeds the pose-detection and task logic of
the repository: the gesture detectors (`detectHandRaised` from
RaiseHandTask, `detectOneLegStance` from OneLegStanceTask), the frame
recording (`recordPoseFrame`), the countdown tick installed by
`processFrame`, the REST helpers of the api service, and the per-frame
task state machine shared by both task components.  Coordinates and
clock values are modelled as rationals; a landmark list indexes with
`List.get?` so that a missing array entry is `none`, matching the
JavaScript undefined checks.
-/

namespace Sutra

/-- A pose landmark as produced by the MediaPipe BlazePose model: normalized
coordinates plus a visibility confidence score. -/
structure Landmark where
  x : ℚ
  y : ℚ
  z : ℚ
  visibility : ℚ
deriving DecidableEq

/-- Result of PoseLandmarker.detectForVideo: a (possibly empty) list of
poses, each a list of landmarks. -/
structure PoseLandmarkerResult where
  landmarks : List (List Landmark)
deriving DecidableEq

/-- Landmark index LEFT_SHOULDER = 11 (both tasks). -/
def LEFT_SHOULDER : ℕ := 11

/-- Landmark index RIGHT_SHOULDER = 12. -/
def RIGHT_SHOULDER : ℕ := 12

/-- Landmark index LEFT_WRIST = 15. -/
def LEFT_WRIST : ℕ := 15

/-- Landmark index RIGHT_WRIST = 16. -/
def RIGHT_WRIST : ℕ := 16

/-- Landmark index LEFT_HIP = 23. -/
def LEFT_HIP : ℕ := 23

/-- Landmark index RIGHT_HIP = 24. -/
def RIGHT_HIP : ℕ := 24

/-- Landmark index LEFT_ANKLE = 27. -/
def LEFT_ANKLE : ℕ := 27

/-- Landmark index RIGHT_ANKLE = 28. -/
def RIGHT_ANKLE : ℕ := 28

/-- JavaScript Math.abs on rationals, as used in detectOneLegStance. -/
def mathAbs (q : ℚ) : ℚ := if q < 0 then -q else q

theorem mathAbs_eq_abs (q : ℚ) : mathAbs q = |q| := by
  unfold mathAbs
  rcases lt_or_ge q 0 with h | h
  · rw [if_pos h, abs_of_neg h]
  · rw [if_neg (not_lt.mpr h), abs_of_nonneg h]

/-- RaiseHandTask detectHandRaised: fetch both wrists and both shoulders;
return false when any is missing or has visibility below 0.3; otherwise the
hand is raised when either wrist's y is strictly below the corresponding
shoulder's y. -/
def detectHandRaised (landmarks : List Landmark) : Bool :=
  match landmarks.get? LEFT_WRIST, landmarks.get? RIGHT_WRIST,
        landmarks.get? LEFT_SHOULDER, landmarks.get? RIGHT_SHOULDER with
  | some leftWrist, some rightWrist, some leftShoulder, some rightShoulder =>
      if leftWrist.visibility < 3/10 ∨ rightWrist.visibility < 3/10 ∨
          leftShoulder.visibility < 3/10 ∨ rightShoulder.visibility < 3/10 then
        false
      else
        decide (leftWrist.y < leftShoulder.y) || decide (rightWrist.y < rightShoulder.y)
  | _, _, _, _ => false

theorem detectHandRaised_eq (landmarks : List Landmark)
    (lw rw ls rs : Landmark)
    (hlw : landmarks.get? LEFT_WRIST = some lw)
    (hrw : landmarks.get? RIGHT_WRIST = some rw)
    (hls : landmarks.get? LEFT_SHOULDER = some ls)
    (hrs : landmarks.get? RIGHT_SHOULDER = some rs) :
    detectHandRaised landmarks =
      if lw.visibility < 3/10 ∨ rw.visibility < 3/10 ∨
          ls.visibility < 3/10 ∨ rs.visibility < 3/10 then
        false
      else
        decide (lw.y < ls.y) || decide (rw.y < rs.y) := by
  unfold detectHandRaised
  rw [hlw, hrw, hls, hrs]

/-- OneLegStanceTask threshold ANKLE_HEIGHT_THRESHOLD = 0.01. -/
def ANKLE_HEIGHT_THRESHOLD : ℚ := 1/100

/-- OneLegStanceTask detectOneLegStance: false when no pose was detected;
fetch both ankles and both hips from the first pose and return false when
any is missing or has visibility below 0.1; otherwise compare the absolute
difference of the hip-relative ankle heights against the threshold. -/
def detectOneLegStance (result : PoseLandmarkerResult) : Bool :=
  match result.landmarks.head? with
  | none => false
  | some landmarks =>
    match landmarks.get? LEFT_ANKLE, landmarks.get? RIGHT_ANKLE,
          landmarks.get? LEFT_HIP, landmarks.get? RIGHT_HIP with
    | some leftAnkle, some rightAnkle, some leftHip, some rightHip =>
        if leftAnkle.visibility < 1/10 ∨ rightAnkle.visibility < 1/10 ∨
            leftHip.visibility < 1/10 ∨ rightHip.visibility < 1/10 then
          false
        else
          let avgHipY := (leftHip.y + rightHip.y) / 2
          let leftAnkleHeight := avgHipY - leftAnkle.y
          let rightAnkleHeight := avgHipY - rightAnkle.y
          let heightDiff := mathAbs (leftAnkleHeight - rightAnkleHeight)
          decide (heightDiff > ANKLE_HEIGHT_THRESHOLD)
    | _, _, _, _ => false

theorem detectOneLegStance_eq (result : PoseLandmarkerResult)
    (lms : List Landmark) (la ra lh rh : Landmark)
    (hh : result.landmarks.head? = some lms)
    (hla : lms.get? LEFT_ANKLE = some la)
    (hra : lms.get? RIGHT_ANKLE = some ra)
    (hlh : lms.get? LEFT_HIP = some lh)
    (hrh : lms.get? RIGHT_HIP = some rh) :
    detectOneLegStance result =
      if la.visibility < 1/10 ∨ ra.visibility < 1/10 ∨
          lh.visibility < 1/10 ∨ rh.visibility < 1/10 then
        false
      else
        decide (mathAbs (((lh.y + rh.y) / 2 - la.y) - ((lh.y + rh.y) / 2 - ra.y))
          > ANKLE_HEIGHT_THRESHOLD) := by
  unfold detectOneLegStance
  rw [hh]
  simp only [hla, hra, hlh, hrh]

/-- Landmark with given y and visibility, at x = 0 and z = 0. -/
def lmYV (y v : ℚ) : Landmark := ⟨0, y, 0, v⟩

/-- Landmark array whose left wrist (index 15) sits at y = 0, strictly above
the left shoulder (index 11) at y = 1, but where every landmark has
visibility 0. -/
def lowVisHandLms : List Landmark :=
  List.replicate 15 (lmYV 1 0) ++ [lmYV 0 0, lmYV 1 0]

/-- C1 counterexample: in `lowVisHandLms` the left wrist's y-coordinate (0) is
strictly less than the left shoulder's y-coordinate (1), yet
`detectHandRaised` returns false, because every landmark has visibility 0,
below the 0.3 visibility gate that the function checks first.  This refutes
the claim that wristY < shoulderY alone implies a hand-raised result. -/
theorem detectHandRaised_visibility_cex :
    (lowVisHandLms.get? LEFT_WRIST).map Landmark.y = some 0 ∧
    (lowVisHandLms.get? LEFT_SHOULDER).map Landmark.y = some 1 ∧
    (0 : ℚ) < 1 ∧
    detectHandRaised lowVisHandLms = false := by
  refine ⟨rfl, rfl, by norm_num, ?_⟩
  rw [detectHandRaised_eq lowVisHandLms (lmYV 0 0) (lmYV 1 0) (lmYV 1 0) (lmYV 1 0)
    rfl rfl rfl rfl]
  have hc : (lmYV 0 0).visibility < 3/10 ∨ (lmYV 1 0).visibility < 3/10 ∨
      (lmYV 1 0).visibility < 3/10 ∨ (lmYV 1 0).visibility < 3/10 :=
    Or.inl (by norm_num [lmYV])
  rw [if_pos hc]

/-- C1 (amended): whenever both wrists and both shoulders are present with
visibility at least 0.3, and a wrist's y-coordinate is less than the
corresponding shoulder's y-coordinate (for the left side or the right side),
`detectHandRaised` returns true. -/
theorem detectHandRaised_of_visible_raised (landmarks : List Landmark)
    (lw rw ls rs : Landmark)
    (hlw : landmarks.get? LEFT_WRIST = some lw)
    (hrw : landmarks.get? RIGHT_WRIST = some rw)
    (hls : landmarks.get? LEFT_SHOULDER = some ls)
    (hrs : landmarks.get? RIGHT_SHOULDER = some rs)
    (hvlw : 3/10 ≤ lw.visibility) (hvrw : 3/10 ≤ rw.visibility)
    (hvls : 3/10 ≤ ls.visibility) (hvrs : 3/10 ≤ rs.visibility)
    (hraised : lw.y < ls.y ∨ rw.y < rs.y) :
    detectHandRaised landmarks = true := by
  have hnc : ¬(lw.visibility < 3/10 ∨ rw.visibility < 3/10 ∨
      ls.visibility < 3/10 ∨ rs.visibility < 3/10) := by
    push_neg
    exact ⟨hvlw, hvrw, hvls, hvrs⟩
  rw [detectHandRaised_eq landmarks lw rw ls rs hlw hrw hls hrs, if_neg hnc]
  rcases hraised with h | h
  · simp [h]
  · simp [h]

/-- Landmark array with full visibility where the left wrist (index 15,
y = 0) is above the left shoulder (index 11, y = 1). -/
def raisedHandLms : List Landmark :=
  List.replicate 15 (lmYV 1 1) ++ [lmYV 0 1, lmYV 1 1]

/-- Witness for the amended C1 theorem at the concrete array
`raisedHandLms`. -/
theorem detectHandRaised_of_visible_raised_witness :
    detectHandRaised raisedHandLms = true :=
  detectHandRaised_of_visible_raised raisedHandLms
    (lmYV 0 1) (lmYV 1 1) (lmYV 1 1) (lmYV 1 1)
    rfl rfl rfl rfl
    (by norm_num [lmYV]) (by norm_num [lmYV]) (by norm_num [lmYV])
    (by norm_num [lmYV]) (Or.inl (by norm_num [lmYV]))

/-- The claim-side characterization of the one-leg-stance detector, written
from the spec's words: both ankles and both hips are present with visibility
at least 0.1 and the absolute difference between the two hip-relative ankle
heights exceeds the 0.01 threshold. -/
def detectOneLegStanceSpec (result : PoseLandmarkerResult) : Prop :=
  ∃ lms la ra lh rh,
    result.landmarks.head? = some lms ∧
    lms.get? LEFT_ANKLE = some la ∧
    lms.get? RIGHT_ANKLE = some ra ∧
    lms.get? LEFT_HIP = some lh ∧
    lms.get? RIGHT_HIP = some rh ∧
    1/10 ≤ la.visibility ∧ 1/10 ≤ ra.visibility ∧
    1/10 ≤ lh.visibility ∧ 1/10 ≤ rh.visibility ∧
    ANKLE_HEIGHT_THRESHOLD <
      |((lh.y + rh.y) / 2 - la.y) - ((lh.y + rh.y) / 2 - ra.y)|

/-- C2: `detectOneLegStance` returns true exactly when both ankles and both
hips are present with visibility at least 0.1 and the absolute difference of
the hip-relative ankle heights exceeds the threshold 0.01; in particular it
returns false whenever no pose was detected. -/
theorem detectOneLegStance_iff_spec :
    (∀ result : PoseLandmarkerResult,
      detectOneLegStance result = true ↔ detectOneLegStanceSpec result) ∧
    (∀ result : PoseLandmarkerResult,
      result.landmarks = [] → detectOneLegStance result = false) := by
  constructor
  · intro result
    constructor
    · intro h
      unfold detectOneLegStance at h
      split at h
      · simp at h
      · rename_i lms hh
        split at h
        · rename_i la ra lh rh hla hra hlh hrh
          split at h
          · simp at h
          · rename_i hvis
            push_neg at hvis
            simp only [decide_eq_true_eq] at h
            exact ⟨lms, la, ra, lh, rh, hh, hla, hra, hlh, hrh,
              hvis.1, hvis.2.1, hvis.2.2.1, hvis.2.2.2,
              by rw [← mathAbs_eq_abs]; exact h⟩
        · simp at h
    · rintro ⟨lms, la, ra, lh, rh, hh, hla, hra, hlh, hrh,
        hvla, hvra, hvlh, hvrh, hdiff⟩
      have hnc : ¬(la.visibility < 1/10 ∨ ra.visibility < 1/10 ∨
          lh.visibility < 1/10 ∨ rh.visibility < 1/10) := by
        push_neg
        exact ⟨hvla, hvra, hvlh, hvrh⟩
      rw [detectOneLegStance_eq result lms la ra lh rh hh hla hra hlh hrh,
        if_neg hnc, decide_eq_true_eq, mathAbs_eq_abs]
      exact hdiff
  · intro result h
    unfold detectOneLegStance
    rw [h]
    rfl

/-- Pose with full landmark visibility where the left ankle (index 27) is at
y = 0 and the right ankle (index 28) at y = 1, a gap far above the 0.01
threshold; both hips (23, 24) sit at y = 0. -/
def stanceLms : List Landmark :=
  List.replicate 27 (lmYV 0 1) ++ [lmYV 0 1, lmYV 1 1]

/-- Witness for C2: applies the characterization to the empty result (no
pose, detector false) and to the concrete pose `stanceLms` (detector true,
so the spec side holds). -/
theorem detectOneLegStance_iff_spec_witness :
    detectOneLegStance ⟨[]⟩ = false ∧ detectOneLegStanceSpec ⟨[stanceLms]⟩ := by
  have hdet : detectOneLegStance ⟨[stanceLms]⟩ = true := by
    rw [detectOneLegStance_eq ⟨[stanceLms]⟩ stanceLms
      (lmYV 0 1) (lmYV 1 1) (lmYV 0 1) (lmYV 0 1) rfl rfl rfl rfl rfl]
    have hnc : ¬((lmYV 0 1).visibility < 1/10 ∨ (lmYV 1 1).visibility < 1/10 ∨
        (lmYV 0 1).visibility < 1/10 ∨ (lmYV 0 1).visibility < 1/10) := by
      norm_num [lmYV]
    rw [if_neg hnc, decide_eq_true_eq]
    norm_num [mathAbs, lmYV, ANKLE_HEIGHT_THRESHOLD]
  exact ⟨detectOneLegStance_iff_spec.2 ⟨[]⟩ rfl,
    (detectOneLegStance_iff_spec.1 ⟨[stanceLms]⟩).mp hdet⟩

/-- C3: the hip reference cancels out of the one-leg-stance decision: the
computed quantity |(avgHipY - leftAnkleY) - (avgHipY - rightAnkleY)| equals
|rightAnkleY - leftAnkleY|, and under the visibility precondition the
detector's outcome is exactly the single inequality 0.01 < |rightAnkleY -
leftAnkleY| on the two ankle y-coordinates, independent of the hips. -/
theorem oneLegStance_hip_cancellation :
    (∀ avgHipY la ra : ℚ,
      |(avgHipY - la) - (avgHipY - ra)| = |ra - la|) ∧
    (∀ (result : PoseLandmarkerResult) (lms : List Landmark)
        (la ra lh rh : Landmark),
      result.landmarks.head? = some lms →
      lms.get? LEFT_ANKLE = some la →
      lms.get? RIGHT_ANKLE = some ra →
      lms.get? LEFT_HIP = some lh →
      lms.get? RIGHT_HIP = some rh →
      1/10 ≤ la.visibility → 1/10 ≤ ra.visibility →
      1/10 ≤ lh.visibility → 1/10 ≤ rh.visibility →
      (detectOneLegStance result = true ↔
        ANKLE_HEIGHT_THRESHOLD < |ra.y - la.y|)) := by
  constructor
  · intro avgHipY la ra
    congr 1
    ring
  · intro result lms la ra lh rh hh hla hra hlh hrh hvla hvra hvlh hvrh
    have hnc : ¬(la.visibility < 1/10 ∨ ra.visibility < 1/10 ∨
        lh.visibility < 1/10 ∨ rh.visibility < 1/10) := by
      push_neg
      exact ⟨hvla, hvra, hvlh, hvrh⟩
    rw [detectOneLegStance_eq result lms la ra lh rh hh hla hra hlh hrh,
      if_neg hnc, decide_eq_true_eq, mathAbs_eq_abs]
    have hcancel : |((lh.y + rh.y) / 2 - la.y) - ((lh.y + rh.y) / 2 - ra.y)|
        = |ra.y - la.y| := by
      congr 1
      ring
    rw [hcancel]

/-- Witness for C3 at the concrete pose `stanceLms`: the detector fires and
the ankle-only inequality holds, the hip values playing no role. -/
theorem oneLegStance_hip_cancellation_witness :
    ANKLE_HEIGHT_THRESHOLD < |(lmYV 1 1).y - (lmYV 0 1).y| := by
  have hdet : detectOneLegStance ⟨[stanceLms]⟩ = true := by
    rw [detectOneLegStance_eq ⟨[stanceLms]⟩ stanceLms
      (lmYV 0 1) (lmYV 1 1) (lmYV 0 1) (lmYV 0 1) rfl rfl rfl rfl rfl]
    have hnc : ¬((lmYV 0 1).visibility < 1/10 ∨ (lmYV 1 1).visibility < 1/10 ∨
        (lmYV 0 1).visibility < 1/10 ∨ (lmYV 0 1).visibility < 1/10) := by
      norm_num [lmYV]
    rw [if_neg hnc, decide_eq_true_eq]
    norm_num [mathAbs, lmYV, ANKLE_HEIGHT_THRESHOLD]
  exact (oneLegStance_hip_cancellation.2 ⟨[stanceLms]⟩ stanceLms
    (lmYV 0 1) (lmYV 1 1) (lmYV 0 1) (lmYV 0 1)
    rfl rfl rfl rfl rfl
    (by norm_num [lmYV]) (by norm_num [lmYV]) (by norm_num [lmYV])
    (by norm_num [lmYV])).mp hdet

/-- Task duration in seconds (TASK_DURATION = 10 in both task components). -/
def TASK_DURATION : ℚ := 10

/-- Remaining time computed by the countdown interval callback:
max(0, TASK_DURATION - elapsed). -/
def tickRemaining (elapsed : ℚ) : ℚ := max 0 (TASK_DURATION - elapsed)

/-- Displayed remaining time: Math.ceil of the remaining time, as passed to
setTimeRemaining. -/
def tickDisplay (elapsed : ℚ) : ℤ := ⌈tickRemaining elapsed⌉

/-- Whether the interval callback declares success on this tick
(remaining <= 0). -/
def tickSuccess (elapsed : ℚ) : Bool := decide (tickRemaining elapsed ≤ 0)

/-- C4: at every countdown tick with non-negative elapsed time, the displayed
remaining time is ceil(max(0, 10 - elapsed)), an integer between 0 and 10,
non-increasing as elapsed time grows; and the tick declares success exactly
when the remaining time (equivalently the displayed value) reaches 0. -/
theorem countdown_tick_spec (elapsed : ℚ) (h0 : 0 ≤ elapsed) :
    tickDisplay elapsed = ⌈max 0 (TASK_DURATION - elapsed)⌉ ∧
    0 ≤ tickDisplay elapsed ∧ tickDisplay elapsed ≤ 10 ∧
    (∀ e2 : ℚ, elapsed ≤ e2 → tickDisplay e2 ≤ tickDisplay elapsed) ∧
    (tickSuccess elapsed = true ↔ tickRemaining elapsed = 0) ∧
    (tickSuccess elapsed = true ↔ tickDisplay elapsed = 0) := by
  have hrem0 : ∀ e : ℚ, 0 ≤ tickRemaining e := fun e => le_max_left 0 _
  refine ⟨rfl, Int.ceil_nonneg (hrem0 elapsed), ?_, ?_, ?_, ?_⟩
  · have h1 : tickRemaining elapsed ≤ 10 := by
      unfold tickRemaining TASK_DURATION
      rw [max_le_iff]
      constructor <;> linarith
    calc tickDisplay elapsed ≤ ⌈(10 : ℚ)⌉ := Int.ceil_mono h1
      _ = 10 := by norm_num
  · intro e2 h12
    apply Int.ceil_mono
    unfold tickRemaining
    exact max_le_max le_rfl (by linarith)
  · unfold tickSuccess
    rw [decide_eq_true_eq]
    exact ⟨fun hle => le_antisymm hle (hrem0 elapsed), fun heq => le_of_eq heq⟩
  · unfold tickSuccess tickDisplay
    rw [decide_eq_true_eq]
    constructor
    · intro hle
      have hz : tickRemaining elapsed = 0 := le_antisymm hle (hrem0 elapsed)
      rw [hz]
      exact Int.ceil_zero
    · intro hd
      have h1 : tickRemaining elapsed ≤ ((0 : ℤ) : ℚ) := Int.ceil_le.mp (le_of_eq hd)
      simpa using h1

/-- Witness for C4 at elapsed = 0: the display shows the full 10 seconds and
the theorem's bound applies. -/
theorem countdown_tick_spec_witness :
    tickDisplay 0 = 10 ∧ 0 ≤ tickDisplay 0 := by
  constructor
  · unfold tickDisplay tickRemaining TASK_DURATION
    norm_num
  · exact (countdown_tick_spec 0 le_rfl).2.1

/-- JavaScript x || y on rational numbers: yields the fallback when the left
operand is 0 (the only falsy finite number). -/
def jsOr (v fallback : ℚ) : ℚ := if v = 0 then fallback else v

/-- Per-landmark record built by recordPoseFrame (OneLegStanceTask) and by
the detecting branch of RaiseHandTask processFrame: x and y are copied, z
and visibility go through the JavaScript fallbacks z || 0 and
visibility || 1.0. -/
def recordLandmark (lm : Landmark) : Landmark :=
  { x := lm.x, y := lm.y, z := jsOr lm.z 0, visibility := jsOr lm.visibility 1 }

/-- A recorded pose frame (api PoseFrame DTO). -/
structure PoseFrame where
  frame_number : ℕ
  timestamp : ℚ
  landmarks : List Landmark
deriving DecidableEq

/-- recordPoseFrame: appends to the buffer a frame whose frame_number is the
current buffer length, whose timestamp is the given milliseconds value
divided by 1000, and whose landmarks are the mapped model landmarks. -/
def recordPoseFrame (frames : List PoseFrame) (landmarks : List Landmark)
    (timestampMs : ℚ) : List PoseFrame :=
  frames ++ [{ frame_number := frames.length, timestamp := timestampMs / 1000,
               landmarks := landmarks.map recordLandmark }]

theorem recordLandmark_fields (lm : Landmark) :
    recordLandmark lm =
      { x := lm.x, y := lm.y, z := lm.z,
        visibility := if lm.visibility = 0 then 1 else lm.visibility } := by
  unfold recordLandmark jsOr
  rcases eq_or_ne lm.z 0 with hz | hz
  · rw [if_pos hz, hz]
  · rw [if_neg hz]

/-- C8 counterexample: a model landmark with visibility 0 is recorded with
visibility 1.0 (the JavaScript || 1.0 fallback fires on the falsy value 0),
so the recorded visibility does not equal the model's value. -/
theorem recordLandmark_visibility_cex :
    (Landmark.mk 0 0 0 0).visibility = 0 ∧
    (recordLandmark (Landmark.mk 0 0 0 0)).visibility = 1 ∧
    (1 : ℚ) ≠ 0 := by
  refine ⟨rfl, ?_, by norm_num⟩
  norm_num [recordLandmark, jsOr]

/-- C8 (amended): every landmark stored in a recorded PoseFrame copies the
model's x, y and z values, and copies the model's visibility except when
that visibility is 0, in which case 1.0 is recorded instead. -/
theorem recordPoseFrame_landmark_fields (frames : List PoseFrame)
    (lms : List Landmark) (ts : ℚ) (i : ℕ) (lm : Landmark)
    (hi : lms.get? i = some lm) :
    ∃ f, (recordPoseFrame frames lms ts).getLast? = some f ∧
      f.landmarks.get? i = some
        { x := lm.x, y := lm.y, z := lm.z,
          visibility := if lm.visibility = 0 then 1 else lm.visibility } := by
  refine ⟨{ frame_number := frames.length, timestamp := ts / 1000,
            landmarks := lms.map recordLandmark }, ?_, ?_⟩
  · unfold recordPoseFrame
    exact List.getLast?_concat frames
  · show (lms.map recordLandmark).get? i = _
    rw [List.get?_map, hi]
    show some (recordLandmark lm) = _
    rw [recordLandmark_fields]

/-- Witness for the amended C8 theorem at a concrete landmark. -/
theorem recordPoseFrame_landmark_fields_witness :
    ∃ f, (recordPoseFrame [] [Landmark.mk 2 3 5 7] 2000).getLast? = some f ∧
      f.landmarks.get? 0 = some
        { x := (Landmark.mk 2 3 5 7).x, y := (Landmark.mk 2 3 5 7).y,
          z := (Landmark.mk 2 3 5 7).z,
          visibility := if (Landmark.mk 2 3 5 7).visibility = 0 then 1
            else (Landmark.mk 2 3 5 7).visibility } :=
  recordPoseFrame_landmark_fields [] [Landmark.mk 2 3 5 7] 2000 0 _ rfl

/-- Frame numbers in the recorded buffer equal their index, and this is
preserved by recordPoseFrame (the buffer is only ever extended by it or
cleared to []). -/
theorem recordPoseFrame_frame_number (frames : List PoseFrame)
    (lms : List Landmark) (ts : ℚ)
    (h : ∀ i f, frames.get? i = some f → f.frame_number = i) :
    ∀ i f, (recordPoseFrame frames lms ts).get? i = some f →
      f.frame_number = i := by
  intro i f hf
  unfold recordPoseFrame at hf
  rcases lt_trichotomy i frames.length with hlt | heq | hgt
  · rw [List.get?_append hlt] at hf
    exact h i f hf
  · rw [heq] at hf
    rw [List.get?_concat_length] at hf
    cases hf
    exact heq.symm
  · rw [List.get?_append_right (le_of_lt hgt)] at hf
    have h1 : (1 : ℕ) ≤ i - frames.length := by omega
    rw [List.get?_eq_none.mpr (by simpa using h1)] at hf
    cases hf

/-- OneLegStanceTask passes processFrame's performance.now() value minus the
Date.now() value stored in taskStartTimeRef at detection start as the
millisecond timestamp for recordPoseFrame (processFrame lines 357 and 368):
the two clocks have different origins (page load vs Unix epoch). -/
def oneLegRelativeTimestampMs (perfNowMs dateNowStartMs : ℚ) : ℚ :=
  perfNowMs - dateNowStartMs

/-- C10 code bug: with performance.now() = 5000 ms (five seconds after page
load) and a task start stored as Date.now() = 1700000000000 ms (Unix epoch
milliseconds), the recorded frame's timestamp is -1699999995 seconds,
negative rather than the non-negative elapsed seconds since task start that
the recording intends (RaiseHandTask uses Date.now() for both ends and so
does record non-negative elapsed seconds). -/
theorem oneLeg_timestamp_bug :
    ((recordPoseFrame [] [Landmark.mk 0 0 0 1]
        (oneLegRelativeTimestampMs 5000 1700000000000)).map PoseFrame.timestamp)
      = [-1699999995] ∧ (-1699999995 : ℚ) < 0 := by
  constructor
  · simp only [recordPoseFrame, oneLegRelativeTimestampMs, List.nil_append,
      List.map_cons, List.map_nil]
    norm_num
  · norm_num

/-- Request body of api createSession. -/
structure SessionCreate where
  task_type : String
deriving DecidableEq

/-- Nested score block of the SessionResponse DTO. -/
structure SessionScores where
  stability_score : ℚ
  balance_score : ℚ
  symmetry_score : ℚ
  rom_score : ℚ
  risk_score : ℚ
deriving DecidableEq

/-- SessionResponse DTO returned by the backend. -/
structure SessionResponse where
  id : ℕ
  task_type : String
  status : String
  created_at : String
  updated_at : String
  duration_seconds : Option ℚ
  stability_score : Option ℚ
  balance_score : Option ℚ
  symmetry_score : Option ℚ
  rom_score : Option ℚ
  risk_score : Option ℚ
  risk_level : Option String
  scores : Option SessionScores
deriving DecidableEq

/-- Request body of api processPoseData (ProcessPoseDataRequest DTO):
the pose_data field carries the frame array, plus the duration. -/
structure ProcessPoseDataRequest where
  pose_data : List PoseFrame
  duration : ℚ
deriving DecidableEq

/-- ProcessPoseDataResponse DTO returned by the backend. -/
structure ProcessPoseDataResponse where
  message : String
  session_id : ℕ
  frames_processed : ℕ
  duration : ℚ
  stability_score : ℚ
  balance_score : ℚ
  risk_score : ℚ
  risk_level : String
deriving DecidableEq

/-- An HTTP response as the api helpers observe it: the ok flag together
with the parsed body that response.json() (or .blob()) would yield. -/
structure HttpResponse (β : Type) where
  ok : Bool
  body : β

/-- Binary body of a downloaded report. -/
abbrev Blob := List ℕ

/-- Whether a helper's outcome is a thrown Error. -/
def throwsError {α : Type} : Except String α → Bool
  | Except.error _ => true
  | Except.ok _ => false

/-- api createSession: the serialized request body paired with the outcome;
throws "Failed to create session" unless response.ok, else the parsed
SessionResponse. -/
def createSession (taskType : String) (resp : HttpResponse SessionResponse) :
    SessionCreate × Except String SessionResponse :=
  ({ task_type := taskType },
   if resp.ok then Except.ok resp.body else Except.error "Failed to create session")

/-- Request body built by api processPoseData: the input frame array is
serialized unchanged as pose_data together with the duration. -/
def processPoseDataBody (poseData : List PoseFrame) (duration : ℚ) :
    ProcessPoseDataRequest :=
  { pose_data := poseData, duration := duration }

/-- api processPoseData: the serialized request body paired with the
outcome; throws "Failed to process pose data" unless response.ok.  The
sessionId only selects the URL. -/
def processPoseData (sessionId : ℕ) (poseData : List PoseFrame) (duration : ℚ)
    (resp : HttpResponse ProcessPoseDataResponse) :
    ProcessPoseDataRequest × Except String ProcessPoseDataResponse :=
  (processPoseDataBody poseData duration,
   if resp.ok then Except.ok resp.body else Except.error "Failed to process pose data")

/-- api getSessionResults: throws unless response.ok, else the parsed
SessionResponse. -/
def getSessionResults (sessionId : ℕ) (resp : HttpResponse SessionResponse) :
    Except String SessionResponse :=
  if resp.ok then Except.ok resp.body else Except.error "Failed to get session results"

/-- api getAllSessions: throws unless response.ok, else the parsed list. -/
def getAllSessions (resp : HttpResponse (List SessionResponse)) :
    Except String (List SessionResponse) :=
  if resp.ok then Except.ok resp.body else Except.error "Failed to get sessions"

/-- api deleteSession: throws unless response.ok; resolves with no value. -/
def deleteSession (sessionId : ℕ) (resp : HttpResponse Unit) :
    Except String Unit :=
  if resp.ok then Except.ok resp.body else Except.error "Failed to delete session"

/-- api downloadReport: throws unless response.ok, else the blob body. -/
def downloadReport (sessionId : ℕ) (regenerate : Bool) (resp : HttpResponse Blob) :
    Except String Blob :=
  if resp.ok then Except.ok resp.body else Except.error "Failed to download report"

/-- api checkApiHealth: the whole fetch is wrapped in try/catch; a network
failure (no response, modelled as none) yields false, otherwise the ok
flag is returned.  It never throws. -/
def checkApiHealth : Option (HttpResponse Unit) → Bool
  | none => false
  | some r => r.ok

/-- C6: each exported network helper throws an Error exactly when the HTTP
response is not ok and otherwise resolves with the parsed response; there
is a single fetch per call (each helper consumes exactly one response, no
retry); checkApiHealth never throws (it is Bool-valued and total) and is
true exactly when a response arrived and was ok. -/
theorem api_throws_iff_not_ok :
    (∀ (t : String) (resp : HttpResponse SessionResponse),
      throwsError (createSession t resp).2 = !resp.ok ∧
      (resp.ok = true → (createSession t resp).2 = Except.ok resp.body)) ∧
    (∀ (sid : ℕ) (pd : List PoseFrame) (d : ℚ)
        (resp : HttpResponse ProcessPoseDataResponse),
      throwsError (processPoseData sid pd d resp).2 = !resp.ok ∧
      (resp.ok = true → (processPoseData sid pd d resp).2 = Except.ok resp.body)) ∧
    (∀ (sid : ℕ) (resp : HttpResponse SessionResponse),
      throwsError (getSessionResults sid resp) = !resp.ok ∧
      (resp.ok = true → getSessionResults sid resp = Except.ok resp.body)) ∧
    (∀ resp : HttpResponse (List SessionResponse),
      throwsError (getAllSessions resp) = !resp.ok ∧
      (resp.ok = true → getAllSessions resp = Except.ok resp.body)) ∧
    (∀ (sid : ℕ) (resp : HttpResponse Unit),
      throwsError (deleteSession sid resp) = !resp.ok ∧
      (resp.ok = true → deleteSession sid resp = Except.ok resp.body)) ∧
    (∀ (sid : ℕ) (rg : Bool) (resp : HttpResponse Blob),
      throwsError (downloadReport sid rg resp) = !resp.ok ∧
      (resp.ok = true → downloadReport sid rg resp = Except.ok resp.body)) ∧
    (∀ o : Option (HttpResponse Unit),
      checkApiHealth o = true ↔ ∃ r, o = some r ∧ r.ok = true) := by
  refine ⟨?_, ?_, ?_, ?_, ?_, ?_, ?_⟩
  · intro t resp
    rcases resp with ⟨ok, body⟩
    cases ok <;> simp [createSession, throwsError]
  · intro sid pd d resp
    rcases resp with ⟨ok, body⟩
    cases ok <;> simp [processPoseData, throwsError]
  · intro sid resp
    rcases resp with ⟨ok, body⟩
    cases ok <;> simp [getSessionResults, throwsError]
  · intro resp
    rcases resp with ⟨ok, body⟩
    cases ok <;> simp [getAllSessions, throwsError]
  · intro sid resp
    rcases resp with ⟨ok, body⟩
    cases ok <;> simp [deleteSession, throwsError]
  · intro sid rg resp
    rcases resp with ⟨ok, body⟩
    cases ok <;> simp [downloadReport, throwsError]
  · intro o
    cases o with
    | none => simp [checkApiHealth]
    | some r =>
      rcases r with ⟨ok, body⟩
      cases ok <;> simp [checkApiHealth]

/-- A SessionResponse with empty fields, for concrete instantiation. -/
def emptySessionResponse : SessionResponse :=
  { id := 0, task_type := "", status := "", created_at := "", updated_at := "",
    duration_seconds := none, stability_score := none, balance_score := none,
    symmetry_score := none, rom_score := none, risk_score := none,
    risk_level := none, scores := none }

/-- Witness for C6: createSession resolves with the body on an ok response,
and checkApiHealth is true on an ok health response. -/
theorem api_throws_iff_not_ok_witness :
    (createSession "one_leg_stance" ⟨true, emptySessionResponse⟩).2
        = Except.ok emptySessionResponse ∧
    checkApiHealth (some ⟨true, ()⟩) = true :=
  ⟨(api_throws_iff_not_ok.1 "one_leg_stance" ⟨true, emptySessionResponse⟩).2 rfl,
   (api_throws_iff_not_ok.2.2.2.2.2.2 (some ⟨true, ()⟩)).mpr ⟨⟨true, ()⟩, rfl, rfl⟩⟩

/-- OneLegStanceTask sendToBackend, modelled by its network effect: when the
recorded buffer is empty it returns before any network call (none);
otherwise the processPoseData request posted for the newly created session
carries exactly the recorded frames and the task duration. -/
def sendToBackend (sessionId : ℕ) (recordedFrames : List PoseFrame) :
    Option ProcessPoseDataRequest :=
  if recordedFrames.length = 0 then none
  else some (processPoseDataBody recordedFrames TASK_DURATION)

/-- C5: processPoseData serializes its input frame array unchanged as the
pose_data field of the request body, and sendToBackend posts exactly the
accumulated frames (posting nothing at all when the buffer is empty). -/
theorem pose_data_posted_verbatim :
    (∀ (sid : ℕ) (pd : List PoseFrame) (d : ℚ)
        (resp : HttpResponse ProcessPoseDataResponse),
      (processPoseData sid pd d resp).1.pose_data = pd ∧
      (processPoseData sid pd d resp).1.duration = d) ∧
    (∀ (sid : ℕ) (frames : List PoseFrame), frames ≠ [] →
      ∃ req, sendToBackend sid frames = some req ∧ req.pose_data = frames ∧
        req.duration = TASK_DURATION) ∧
    (∀ sid : ℕ, sendToBackend sid [] = none) := by
  refine ⟨fun sid pd d resp => ⟨rfl, rfl⟩, ?_, fun sid => rfl⟩
  intro sid frames hne
  refine ⟨processPoseDataBody frames TASK_DURATION, ?_, rfl, rfl⟩
  unfold sendToBackend
  rw [if_neg]
  intro hlen
  exact hne (List.length_eq_zero.mp hlen)

/-- A concrete recorded frame. -/
def sampleFrame : PoseFrame :=
  { frame_number := 0, timestamp := 0, landmarks := [] }

/-- Witness for C5 at a one-frame buffer. -/
theorem pose_data_posted_verbatim_witness :
    ∃ req, sendToBackend 1 [sampleFrame] = some req ∧
      req.pose_data = [sampleFrame] ∧ req.duration = TASK_DURATION :=
  pose_data_posted_verbatim.2.1 1 [sampleFrame] (by simp)

/-- The component state relevant to the task status machine: the current
taskStatus string and whether the countdown interval is installed
(timerIntervalRef non-null). -/
structure TaskState where
  taskStatus : String
  timerActive : Bool
deriving DecidableEq

/-- Events driving the status machine of OneLegStanceTask and RaiseHandTask:
a processed video frame carrying the detector input, a countdown interval
tick carrying the elapsed seconds, and the Begin Task / Try Again–Cancel /
Stop Camera button handlers.  The Begin button is rendered only while the
status is idle, which is the guard on beginTask. -/
inductive TaskEvent (α : Type) where
  | frame (input : α)
  | tick (elapsed : ℚ)
  | beginTask
  | resetTask
  | stopCamera

/-- One step of the status machine, parametrized by the detector that
processFrame applies to the frame input (detectOneLegStance on the
PoseLandmarkerResult in OneLegStanceTask, detectHandRaised on the landmark
array in RaiseHandTask).  A frame in ready starts detecting and installs
the countdown; a frame in detecting that loses the gesture clears the
countdown and fails; an installed countdown tick whose remaining time has
reached 0 clears the countdown and succeeds; reset and stop return to idle
with the countdown cleared. -/
def step {α : Type} (detect : α → Bool) (s : TaskState) :
    TaskEvent α → TaskState
  | TaskEvent.frame input =>
      if s.taskStatus = "ready" then
        if detect input then { taskStatus := "detecting", timerActive := true }
        else s
      else if s.taskStatus = "detecting" then
        if detect input then s
        else { taskStatus := "failed", timerActive := false }
      else s
  | TaskEvent.tick elapsed =>
      if s.timerActive then
        if tickRemaining elapsed ≤ 0 then
          { taskStatus := "success", timerActive := false }
        else s
      else s
  | TaskEvent.beginTask =>
      if s.taskStatus = "idle" then
        { taskStatus := "ready", timerActive := s.timerActive }
      else s
  | TaskEvent.resetTask => { taskStatus := "idle", timerActive := false }
  | TaskEvent.stopCamera => { taskStatus := "idle", timerActive := false }

/-- The component mounts with taskStatus 'idle' and no countdown. -/
def initState : TaskState := { taskStatus := "idle", timerActive := false }

/-- Run the machine over a sequence of events. -/
def run {α : Type} (detect : α → Bool) (s : TaskState)
    (events : List (TaskEvent α)) : TaskState :=
  events.foldl (step detect) s

/-- The five status values of the TaskStatus union type. -/
def validStatus (st : String) : Prop :=
  st = "idle" ∨ st = "ready" ∨ st = "detecting" ∨ st = "success" ∨ st = "failed"

theorem validStatus_step {α : Type} (detect : α → Bool) (s : TaskState)
    (e : TaskEvent α) (h : validStatus s.taskStatus) :
    validStatus ((step detect s e).taskStatus) := by
  cases e with
  | frame input =>
    simp only [step]
    split
    · split
      · exact Or.inr (Or.inr (Or.inl rfl))
      · exact h
    · split
      · split
        · exact h
        · exact Or.inr (Or.inr (Or.inr (Or.inr rfl)))
      · exact h
  | tick elapsed =>
    simp only [step]
    split
    · split
      · exact Or.inr (Or.inr (Or.inr (Or.inl rfl)))
      · exact h
    · exact h
  | beginTask =>
    simp only [step]
    split
    · exact Or.inr (Or.inl rfl)
    · exact h
  | resetTask =>
    simp only [step]
    exact Or.inl rfl
  | stopCamera =>
    simp only [step]
    exact Or.inl rfl

theorem validStatus_run {α : Type} (detect : α → Bool) (s : TaskState)
    (events : List (TaskEvent α)) (h : validStatus s.taskStatus) :
    validStatus ((run detect s events).taskStatus) := by
  induction events generalizing s with
  | nil => exact h
  | cons e es ih => exact ih (step detect s e) (validStatus_step detect s e h)

/-- C7: every status value the task state machine ever reaches, in either
task component and under any event sequence, is one of exactly 'idle',
'ready', 'detecting', 'success', 'failed'. -/
theorem taskStatus_five_valued {α : Type} (detect : α → Bool)
    (events : List (TaskEvent α)) :
    validStatus ((run detect initState events).taskStatus) :=
  validStatus_run detect initState events (Or.inl rfl)

/-- The countdown interval is installed only while the status is
'detecting'; this holds at mount and is preserved by every step. -/
def timerInv (s : TaskState) : Prop :=
  s.timerActive = true → s.taskStatus = "detecting"

theorem timerInv_step {α : Type} (detect : α → Bool) (s : TaskState)
    (e : TaskEvent α) (h : timerInv s) : timerInv (step detect s e) := by
  cases e with
  | frame input =>
    simp only [step]
    split
    · split
      · intro _
        rfl
      · exact h
    · split
      · split
        · exact h
        · intro ht
          cases ht
      · exact h
  | tick elapsed =>
    simp only [step]
    split
    · split
      · intro ht
        cases ht
      · exact h
    · exact h
  | beginTask =>
    simp only [step]
    split
    · rename_i hidle
      intro ht
      exact absurd (h ht) (by rw [hidle]; decide)
    · exact h
  | resetTask =>
    simp only [step]
    intro ht
    cases ht
  | stopCamera =>
    simp only [step]
    intro ht
    cases ht

theorem timerInv_run {α : Type} (detect : α → Bool) (s : TaskState)
    (events : List (TaskEvent α)) (h : timerInv s) :
    timerInv (run detect s events) := by
  induction events generalizing s with
  | nil => exact h
  | cons e es ih => exact ih (step detect s e) (timerInv_step detect s e h)

/-- C9: on every reachable state of the per-frame step relation (in either
task component), a step from 'ready' never lands on 'success' or 'failed';
'success' is entered only from 'detecting', by a countdown tick whose
remaining time has reached 0; and 'failed' is entered only from
'detecting', by a frame on which the detector returns false. -/
theorem status_entry_transitions {α : Type} (detect : α → Bool)
    (events : List (TaskEvent α)) (e : TaskEvent α)
    (s : TaskState) (hs : s = run detect initState events) :
    (s.taskStatus = "ready" →
      (step detect s e).taskStatus ≠ "success" ∧
      (step detect s e).taskStatus ≠ "failed") ∧
    ((step detect s e).taskStatus = "success" → s.taskStatus ≠ "success" →
      s.taskStatus = "detecting" ∧
      ∃ t, e = TaskEvent.tick t ∧ tickRemaining t = 0) ∧
    ((step detect s e).taskStatus = "failed" → s.taskStatus ≠ "failed" →
      s.taskStatus = "detecting" ∧
      ∃ input, e = TaskEvent.frame input ∧ detect input = false) := by
  have hinv : timerInv s := by
    rw [hs]
    exact timerInv_run detect initState events (fun ht => absurd ht (by decide))
  refine ⟨?_, ?_, ?_⟩
  · intro hready
    cases e with
    | frame input =>
      simp only [step]
      rw [if_pos hready]
      split
      · exact ⟨by decide, by decide⟩
      · rw [hready]
        exact ⟨by decide, by decide⟩
    | tick elapsed =>
      have htoff : s.timerActive = false := by
        cases htA : s.timerActive
        · rfl
        · exact absurd (hinv htA) (by rw [hready]; decide)
      simp only [step]
      rw [htoff, if_neg (by decide : ¬(false = true)), hready]
      exact ⟨by decide, by decide⟩
    | beginTask =>
      simp only [step]
      rw [if_neg (by rw [hready]; decide), hready]
      exact ⟨by decide, by decide⟩
    | resetTask =>
      simp only [step]
      exact ⟨by decide, by decide⟩
    | stopCamera =>
      simp only [step]
      exact ⟨by decide, by decide⟩
  · intro hsucc hnsucc
    cases e with
    | frame input =>
      exfalso
      simp only [step] at hsucc
      split at hsucc
      · split at hsucc
        · exact absurd hsucc (by decide)
        · exact hnsucc hsucc
      · split at hsucc
        · split at hsucc
          · exact hnsucc hsucc
          · exact absurd hsucc (by decide)
        · exact hnsucc hsucc
    | tick elapsed =>
      simp only [step] at hsucc
      split at hsucc
      · rename_i htA
        split at hsucc
        · rename_i hrem
          have h0 : 0 ≤ tickRemaining elapsed := le_max_left 0 _
          exact ⟨hinv htA, elapsed, rfl, le_antisymm hrem h0⟩
        · exact absurd hsucc hnsucc
      · exact absurd hsucc hnsucc
    | beginTask =>
      exfalso
      simp only [step] at hsucc
      split at hsucc
      · exact absurd hsucc (by simp)
      · exact hnsucc hsucc
    | resetTask =>
      exfalso
      simp only [step] at hsucc
      exact absurd hsucc (by decide)
    | stopCamera =>
      exfalso
      simp only [step] at hsucc
      exact absurd hsucc (by decide)
  · intro hfail hnfail
    cases e with
    | frame input =>
      simp only [step] at hfail
      split at hfail
      · rename_i hready
        split at hfail
        · exact absurd hfail (by decide)
        · exact absurd hfail (by rw [hready]; decide)
      · split at hfail
        · rename_i hdet
          split at hfail
          · exact absurd hfail hnfail
          · rename_i hndet
            exact ⟨hdet, input, rfl, by simpa using hndet⟩
        · exact absurd hfail hnfail
    | tick elapsed =>
      exfalso
      simp only [step] at hfail
      split at hfail
      · split at hfail
        · exact absurd hfail (by decide)
        · exact hnfail hfail
      · exact hnfail hfail
    | beginTask =>
      exfalso
      simp only [step] at hfail
      split at hfail
      · exact absurd hfail (by simp)
      · exact hnfail hfail
    | resetTask =>
      exfalso
      simp only [step] at hfail
      exact absurd hfail (by decide)
    | stopCamera =>
      exfalso
      simp only [step] at hfail
      exact absurd hfail (by decide)

/-- Witness for C9: after Begin Task the machine (instantiated with the
RaiseHandTask detector) is in 'ready', and a tick step from there does not
land on 'success'. -/
theorem status_entry_transitions_witness :
    (run detectHandRaised initState [TaskEvent.beginTask]).taskStatus = "ready" ∧
    (step detectHandRaised (run detectHandRaised initState [TaskEvent.beginTask])
      (TaskEvent.tick 5)).taskStatus ≠ "success" :=
  ⟨rfl,
   ((status_entry_transitions detectHandRaised [TaskEvent.beginTask]
      (TaskEvent.tick 5) (run detectHandRaised initState [TaskEvent.beginTask])
      rfl).1 rfl).1⟩

end Sutra
